import Mathlib

/-!
Verification development for the cricket-ai-analyzer pipeline.

Shallow embedding of the per-frame analytics components:
  * `PoseEngine.calculate_angle` and `PoseEngine.calculate_weight_transfer`
    (src/pose_engine.py),
  * `ShotSegmenter.detect_phase` and `ShotSegmenter.update`
    (src/shot_segmenter.py),
  * `SpeedEstimator._bat_speed` and `SpeedEstimator._ball_speed`
    (src/speed_estimator.py),
  * `Coach.evaluate` (src/coach.py).

Modelling conventions:
  * Pixel coordinates are embedded as exact rationals (`ℚ`); Python floats
    are modelled as exact real/rational arithmetic.
  * `np.linalg.norm`, `np.arccos` and `np.degrees` produce irrational
    values, so quantities downstream of them live in `ℝ` (`Real.sqrt`,
    `Real.arccos`).
  * The Python `round(x, 2)` is modelled as `(round (100*x) : ℤ) / 100`
    (nearest-integer rounding; no claim in scope touches a half-way tie,
    where the Python float rounding is round-half-to-even).
  * The Python `int(x)` on the nonnegative values appearing here truncates
    toward zero, i.e. it is `Int.floor`.
  * A raised exception is modelled as `Option.none`; in particular
    `int(nan)` raises `ValueError` in Python, and the `nan` produced by a
    `0.0/0.0` division is tracked explicitly.
-/

namespace CricketAI

/-- A 2-D pixel point, as handed to the biomechanics code (`kpts[i][:2]`). -/
abbrev Point := ℚ × ℚ

namespace PoseEngine

/-- Dot product `np.dot(ba, bc)` of 2-D vectors. -/
def dot2 (u v : Point) : ℚ := u.1 * v.1 + u.2 * v.2

/-- Squared Euclidean norm of a 2-D vector; `np.linalg.norm v = Real.sqrt (normSq v)`. -/
def normSq (u : Point) : ℚ := u.1 * u.1 + u.2 * u.2

/-- Embedding of `PoseEngine.calculate_angle` (src/pose_engine.py lines 21-29):

    ba = a - b; bc = c - b
    cos = dot(ba, bc) / (norm(ba) * norm(bc))
    angle = degrees(arccos(clip(cos, -1, 1)))
    return int(angle)

When a limb vector has zero length the denominator is `0.0` and the
numerator is `0.0`, so `cos` is `nan`; `clip`, `arccos` and `degrees`
propagate `nan`, and `int(nan)` raises `ValueError`.  That raising path is
the `none` branch.  Otherwise `int` truncates the nonnegative degree value,
i.e. takes its floor. -/
noncomputable def calculate_angle (a b c : Point) : Option ℤ :=
  let ba : Point := (a.1 - b.1, a.2 - b.2)
  let bc : Point := (c.1 - b.1, c.2 - b.2)
  if normSq ba = 0 ∨ normSq bc = 0 then
    none
  else
    let cosv : ℝ :=
      (dot2 ba bc : ℝ) / (Real.sqrt (normSq ba : ℝ) * Real.sqrt (normSq bc : ℝ))
    let clipped : ℝ := max (-1) (min cosv 1)
    let angle : ℝ := Real.arccos clipped * 180 / Real.pi
    some ⌊angle⌋

/-- Result type of `calculate_weight_transfer`: the strings "Balanced",
f"{p}% Front" and f"{p}% Back".  (The `except` fallback "Neutral" of the
Python code can only trigger on malformed keypoint arrays; with all four
keypoints present, as assumed here, no exception is reachable.) -/
inductive WeightLabel where
  | Balanced : WeightLabel
  | Front : ℤ → WeightLabel
  | Back : ℤ → WeightLabel
deriving DecidableEq, Repr

/-- Embedding of `PoseEngine.calculate_weight_transfer`
(src/pose_engine.py lines 31-63), for a keypoint array in which both hips
(indices 11, 12) and both ankles (indices 15, 16) are present; only the
x-coordinates (`[0]`) are read:

    hip_center_x = (l_hip[0] + r_hip[0]) / 2
    feet_width = abs(l_ankle[0] - r_ankle[0])
    if feet_width < 10: return "Balanced"
    pos = clip((hip_center_x - min_x) / (max_x - min_x), 0, 1)
    if pos > 0.6: return f"..% Front"   # int(pos * 100)
    elif pos < 0.4: return f"..% Back"  # int((1 - pos) * 100)
    else: return "Balanced"
-/
def calculate_weight_transfer (l_hip r_hip l_ankle r_ankle : Point) : WeightLabel :=
  let hip_center_x : ℚ := (l_hip.1 + r_hip.1) / 2
  let feet_width : ℚ := |l_ankle.1 - r_ankle.1|
  if feet_width < 10 then .Balanced
  else
    let min_x : ℚ := min l_ankle.1 r_ankle.1
    let max_x : ℚ := max l_ankle.1 r_ankle.1
    let pos0 : ℚ := (hip_center_x - min_x) / (max_x - min_x)
    let pos : ℚ := max 0 (min pos0 1)
    if pos > 0.6 then .Front ⌊pos * 100⌋
    else if pos < 0.4 then .Back ⌊(1 - pos) * 100⌋
    else .Balanced

/-- The clipped hip-position ratio computed inside
`calculate_weight_transfer` when the ankle span is wide enough:
`clip((hip_center_x - min_x) / (max_x - min_x), 0, 1)`. -/
def hipRatio (l_hip r_hip l_ankle r_ankle : Point) : ℚ :=
  max 0 (min (((l_hip.1 + r_hip.1) / 2 - min l_ankle.1 r_ankle.1) /
      (max l_ankle.1 r_ankle.1 - min l_ankle.1 r_ankle.1)) 1)

end PoseEngine

/-- A buffered frame.  The segmenter stores `frame.copy()` values whose pixel
contents never influence the control logic, so frames are opaque tokens. -/
abbrev Frame := ℕ

namespace ShotSegmenter

/-- The four phase strings returned by `detect_phase`. -/
inductive Phase where
  | Backlift : Phase
  | Downswing : Phase
  | Contact : Phase
  | FollowThrough : Phase
deriving DecidableEq, Repr

/-- Embedding of `ShotSegmenter.detect_phase` (src/shot_segmenter.py
lines 25-34): elbow > 150 is Backlift, > 120 Downswing, > 90 Contact,
otherwise FollowThrough.  The elbow angle is the integer produced by
`PoseEngine.calculate_angle` (0 when the target is lost). -/
def detect_phase (elbow_angle : ℤ) : Phase :=
  if elbow_angle > 150 then .Backlift
  else if elbow_angle > 120 then .Downswing
  else if elbow_angle > 90 then .Contact
  else .FollowThrough

/-- Mutable state of `ShotSegmenter`: `current_shot` is the dict
`{"id": .., "start_frame": ..}` (or `None`), `shot_id` the monotonically
increasing counter, `frame_buffer` the `deque(maxlen=buffer_size)`. -/
structure SegState where
  current_shot : Option (ℕ × ℕ)
  shot_id : ℕ
  frame_buffer : List Frame
deriving DecidableEq, Repr

/-- The dict returned by `ShotSegmenter.update`. -/
structure SegResult where
  id : ℕ
  phase : Phase
  started : Bool
  ended : Bool
  frames : Option (List Frame)
deriving DecidableEq, Repr

/-- `deque(maxlen = n).append x`: appending to a full deque evicts the
oldest element. -/
def appendBounded (n : ℕ) (buf : List Frame) (x : Frame) : List Frame :=
  List.drop (buf.length + 1 - n) (buf ++ [x])

/-- Embedding of `ShotSegmenter.update` (src/shot_segmenter.py lines 39-99).
The result dict is built with `id = self.shot_id` read *before* the
start-shot block; the trailing `if self.current_shot: result["id"] = ...`
overwrites it whenever a shot is active after the end-shot block, and the
end-shot block itself writes the id of the ending shot. -/
def update (buffer_size : ℕ) (s : SegState) (elbow : ℤ) (frame : Frame)
    (frame_id : ℕ) : SegState × SegResult :=
  let phase := detect_phase elbow
  -- ---------------- Start Shot ----------------
  let s1 : SegState :=
    if phase = .Backlift ∧ s.current_shot = none then
      { current_shot := some (s.shot_id + 1, frame_id),
        shot_id := s.shot_id + 1, frame_buffer := [] }
    else s
  let started : Bool := decide (phase = .Backlift ∧ s.current_shot = none)
  -- ---------------- Buffer Frames ----------------
  let s2 : SegState :=
    if s1.current_shot.isSome then
      { s1 with frame_buffer := appendBounded buffer_size s1.frame_buffer frame }
    else s1
  -- ---------------- End Shot / Active shot ID ----------------
  match s2.current_shot with
  | some shot =>
    if phase = .FollowThrough then
      ({ s2 with current_shot := none, frame_buffer := [] },
       { id := shot.1, phase := phase, started := started, ended := true,
         frames := some s2.frame_buffer })
    else
      (s2, { id := shot.1, phase := phase, started := started, ended := false,
             frames := none })
  | none =>
    (s2, { id := s.shot_id, phase := phase, started := started, ended := false,
           frames := none })

end ShotSegmenter

namespace Coach

/-- The seven feedback messages `Coach.evaluate` can return. -/
inductive Feedback where
  | power : Feedback
  | downswingTiming : Feedback
  | balance : Feedback
  | forearm : Feedback
  | lateContact : Feedback
  | excellent : Feedback
  | consistency : Feedback
deriving DecidableEq, Repr

/-- The exact feedback strings of src/coach.py. -/
def Feedback.text : Feedback → String
  | .power => "Increase bat swing speed for better power"
  | .downswingTiming => "Start downswing earlier – elbow collapsing"
  | .balance => "Bend front knee more for balance"
  | .forearm => "Accelerate forearm more through contact"
  | .lateContact => "Late contact – meet the ball earlier"
  | .excellent => "Excellent shot mechanics 👍"
  | .consistency => "Good control – keep consistency"

/-- Threshold `self.MIN_BAT_SPEED` (km/h). -/
def MIN_BAT_SPEED : ℚ := 60
/-- Threshold `self.MIN_ELBOW_ANGLE` (degrees). -/
def MIN_ELBOW_ANGLE : ℚ := 120
/-- Threshold `self.MIN_KNEE_ANGLE` (degrees). -/
def MIN_KNEE_ANGLE : ℚ := 140

/-- Embedding of `Coach.evaluate` (src/coach.py lines 15-71).  Each Python
guard has the shape `x and x < t`: a float is truthy exactly when it is
nonzero, so the guard is `x ≠ 0 ∧ x < t`.  Rules are tried in source
order with first-match short-circuit (a chain of early returns). -/
def evaluate (elbow knee bat_speed arm_speed ball_speed : ℚ) : Feedback :=
  if bat_speed ≠ 0 ∧ bat_speed < MIN_BAT_SPEED then .power
  else if elbow ≠ 0 ∧ elbow < MIN_ELBOW_ANGLE then .downswingTiming
  else if knee ≠ 0 ∧ knee < MIN_KNEE_ANGLE then .balance
  else if arm_speed ≠ 0 ∧ arm_speed < bat_speed * 0.6 then .forearm
  else if ball_speed ≠ 0 ∧ ball_speed < bat_speed * 0.7 then .lateContact
  else if bat_speed ≥ 80 ∧ elbow ≥ 140 ∧ knee ≥ 150 then .excellent
  else .consistency

end Coach

namespace SpeedEstimator

/-- `self.meters_per_pixel` calibration constant. -/
def meters_per_pixel : ℝ := 0.0025

/-- `self.alpha` EMA smoothing factor. -/
def alpha : ℝ := 0.3

/-- `np.linalg.norm(np.array q - np.array p)` for 2-D pixel points. -/
noncomputable def pxDist (p q : Point) : ℝ :=
  Real.sqrt (((q.1 - p.1 : ℚ) : ℝ) ^ 2 + ((q.2 - p.2 : ℚ) : ℝ) ^ 2)

/-- The Python `round(x, 2)`: nearest-integer rounding of `100 * x`,
divided back by 100. -/
noncomputable def round2 (x : ℝ) : ℝ := (round (100 * x) : ℤ) / 100

/-- The raw (pre-EMA) bat speed of one displacement:
`px_dist * meters_per_pixel * fps * 3.6` (km/h). -/
noncomputable def rawSpeed (fps : ℝ) (p w : Point) : ℝ :=
  pxDist p w * meters_per_pixel * fps * 3.6

/-- Bat-speed state of `SpeedEstimator`: `self.prev_wrist` and
`self.bat_ema` (both `None` initially). -/
structure BatState where
  prev_wrist : Option Point
  bat_ema : Option ℝ

/-- Embedding of `SpeedEstimator._bat_speed` (src/speed_estimator.py
lines 31-53):

    if wrist is None or self.prev_wrist is None:
        self.prev_wrist = wrist
        return 0.0
    px_dist = norm(wrist - prev_wrist); self.prev_wrist = wrist
    raw_speed = px_dist * meters_per_pixel * fps * 3.6
    bat_ema = raw_speed if bat_ema is None else alpha*raw + (1-alpha)*ema
    return round(min(self.bat_ema, 160.0), 2)
-/
noncomputable def batStep (fps : ℝ) (s : BatState) (wrist : Option Point) :
    BatState × ℝ :=
  match wrist, s.prev_wrist with
  | none, _ => ({ s with prev_wrist := none }, 0)
  | some w, none => ({ s with prev_wrist := some w }, 0)
  | some w, some p =>
      let raw_speed := rawSpeed fps p w
      let ema := match s.bat_ema with
        | none => raw_speed
        | some e => alpha * raw_speed + (1 - alpha) * e
      ({ prev_wrist := some w, bat_ema := some ema }, round2 (min ema 160))

/-- Feeding a whole sequence of per-frame wrist observations through
`_bat_speed`, collecting the reported speeds. -/
noncomputable def batRun (fps : ℝ) (s : BatState) (ws : List (Option Point)) :
    BatState × List ℝ :=
  match ws with
  | [] => (s, [])
  | w :: rest =>
      let step := batStep fps s w
      let tail := batRun fps step.1 rest
      (tail.1, step.2 :: tail.2)

/-- One motion contour found by
`findContours(medianBlur(threshold(absdiff(prev_gray, gray))))`:
its `contourArea` and the center `(x + w // 2, y + h // 2)` of its
`boundingRect`.  The OpenCV image pipeline itself is outside the embedding;
`_ball_speed` is modelled from the point where the per-frame contour list
is in hand. -/
structure Contour where
  area : ℚ
  center : ℤ × ℤ
deriving DecidableEq, Repr

/-- `max(contours, key=cv2.contourArea)`: the first contour of maximal
area (the Python `max` keeps the earlier element on ties). -/
def maxByArea (c : Contour) (cs : List Contour) : Contour :=
  cs.foldl (fun acc x => if x.area > acc.area then x else acc) c

/-- `deque(maxlen = n).append x` for the rolling ball-speed window. -/
def pushWindow (n : ℕ) (l : List ℝ) (x : ℝ) : List ℝ :=
  List.drop (l.length + 1 - n) (l ++ [x])

/-- `np.mean` of the rolling window. -/
noncomputable def listMean (l : List ℝ) : ℝ := l.sum / l.length

/-- Pixel distance between two ball-blob centers. -/
noncomputable def centerDist (p q : ℤ × ℤ) : ℝ :=
  Real.sqrt (((q.1 - p.1 : ℤ) : ℝ) ^ 2 + ((q.2 - p.2 : ℤ) : ℝ) ^ 2)

/-- Ball-speed state of `SpeedEstimator`: `self.prev_gray` (opaque frame
token), `self.prev_ball_center`, and `self.ball_speeds`
(`deque(maxlen=5)`). -/
structure BallState where
  prev_gray : Option ℕ
  prev_ball_center : Option (ℤ × ℤ)
  ball_speeds : List ℝ

/-- Embedding of `SpeedEstimator._ball_speed` (src/speed_estimator.py
lines 58-100).  `gray` is the current grayscale frame (opaque token);
`contours` is the contour list extracted from the differenced frames:

    if prev_gray is None: prev_gray = gray; return 0.0
    ... ; prev_gray = gray
    if not contours: return 0.0
    c = max(contours, key=contourArea)
    if area < 5 or area > 300: return 0.0
    center = boundingRect center
    if prev_ball_center is None: prev_ball_center = center; return 0.0
    speed = dist * meters_per_pixel * fps * 3.6
    ball_speeds.append(speed)
    return round(min(mean(ball_speeds), 160.0), 2)
-/
noncomputable def ballStep (fps : ℝ) (s : BallState) (gray : ℕ)
    (contours : List Contour) : BallState × ℝ :=
  match s.prev_gray with
  | none => ({ s with prev_gray := some gray }, 0)
  | some _ =>
      let s1 : BallState := { s with prev_gray := some gray }
      match contours with
      | [] => (s1, 0)
      | c0 :: rest =>
          let c := maxByArea c0 rest
          if c.area < 5 ∨ c.area > 300 then (s1, 0)
          else
            match s1.prev_ball_center with
            | none => ({ s1 with prev_ball_center := some c.center }, 0)
            | some pc =>
                let speed := centerDist pc c.center * meters_per_pixel * fps * 3.6
                let window := pushWindow 5 s1.ball_speeds speed
                ({ s1 with
                    prev_ball_center := some c.center
                    ball_speeds := window },
                 round2 (min (listMean window) 160))

/-- Does this frame lack a qualifying motion contour?  True when there is
no contour at all, or the area of the largest contour falls outside `[5, 300]`. -/
def noQualifying (contours : List Contour) : Bool :=
  match contours with
  | [] => true
  | c0 :: rest =>
      decide ((maxByArea c0 rest).area < 5 ∨ (maxByArea c0 rest).area > 300)

end SpeedEstimator

end CricketAI

namespace CricketAI

open PoseEngine

/-- C8: permuting the two endpoint labels while keeping the vertex as the
middle argument yields the same angle: `calculate_angle a b c =
calculate_angle c b a` for every triple of 2-D points. -/
theorem c8_angle_symm (a b c : Point) :
    calculate_angle a b c = calculate_angle c b a := by
  unfold calculate_angle
  have hdot : dot2 (a.1 - b.1, a.2 - b.2) (c.1 - b.1, c.2 - b.2)
      = dot2 (c.1 - b.1, c.2 - b.2) (a.1 - b.1, a.2 - b.2) := by
    simp only [dot2]; ring
  by_cases h : normSq (a.1 - b.1, a.2 - b.2) = 0 ∨ normSq (c.1 - b.1, c.2 - b.2) = 0
  · rw [if_pos h, if_pos (Or.symm h)]
  · rw [if_neg h, if_neg (fun hc => h (Or.symm hc))]
    simp only [hdot, mul_comm]

/-- C3 (amended): for every triple of 2-D points whose two limb vectors
`a - b` and `c - b` are both nonzero, `calculate_angle` raises no exception
and returns a finite integer degree value in `[0, 180]`, the cosine having
been clamped to `[-1, 1]` before the inverse cosine.  (As stated over *all*
configurations the claim fails: a zero-length limb vector makes the code
raise, see `c3_degenerate_raises`.) -/
theorem c3_angle_safe (a b c : Point)
    (h1 : normSq (a.1 - b.1, a.2 - b.2) ≠ 0)
    (h2 : normSq (c.1 - b.1, c.2 - b.2) ≠ 0) :
    ∃ k : ℤ, calculate_angle a b c = some k ∧ 0 ≤ k ∧ k ≤ 180 := by
  unfold calculate_angle
  rw [if_neg (by push_neg; exact ⟨h1, h2⟩)]
  set cosv : ℝ :=
    (dot2 (a.1 - b.1, a.2 - b.2) (c.1 - b.1, c.2 - b.2) : ℝ) /
      (Real.sqrt (normSq (a.1 - b.1, a.2 - b.2) : ℝ) *
        Real.sqrt (normSq (c.1 - b.1, c.2 - b.2) : ℝ)) with hcos
  set ang : ℝ := Real.arccos (max (-1) (min cosv 1)) * 180 / Real.pi with hang
  have hπ : (0 : ℝ) < Real.pi := Real.pi_pos
  have h0 : 0 ≤ ang := by
    have := Real.arccos_nonneg (max (-1) (min cosv 1))
    positivity
  have h180 : ang ≤ 180 := by
    have harc : Real.arccos (max (-1) (min cosv 1)) ≤ Real.pi :=
      Real.arccos_le_pi _
    have : ang ≤ Real.pi * 180 / Real.pi := by
      apply div_le_div_of_nonneg_right _ hπ.le
      exact mul_le_mul_of_nonneg_right harc (by norm_num)
    calc ang ≤ Real.pi * 180 / Real.pi := this
      _ = 180 := by field_simp
  refine ⟨⌊ang⌋, rfl, ?_, ?_⟩
  · exact Int.floor_nonneg.mpr h0
  · calc ⌊ang⌋ ≤ ⌊(180 : ℝ)⌋ := Int.floor_le_floor h180
      _ = 180 := by norm_num

/-- Witness for `c3_angle_safe` at the concrete non-degenerate triple
a = (1, 0), b = (0, 0), c = (0, 1). -/
theorem c3_angle_safe_witness :
    ∃ k : ℤ, calculate_angle (1, 0) (0, 0) (0, 1) = some k ∧ 0 ≤ k ∧ k ≤ 180 :=
  c3_angle_safe (1, 0) (0, 0) (0, 1) (by norm_num [normSq]) (by norm_num [normSq])

/-- C3 counterexample: at the degenerate configuration a = b = (0, 0),
c = (1, 0) (zero-length limb vector a - b) the code divides 0.0 by 0.0,
producing `nan`, and `int(nan)` raises `ValueError` — modelled as `none` —
contradicting the claim that no exception is raised and a finite value is
returned. -/
theorem c3_degenerate_raises :
    calculate_angle (0, 0) (0, 0) (1, 0) = none := by
  unfold calculate_angle
  rw [if_pos]
  left
  norm_num [normSq]

/-- The clipped ratio always lies in `[0, 1]`. -/
theorem hipRatio_mem (lh rh la ra : Point) :
    0 ≤ hipRatio lh rh la ra ∧ hipRatio lh rh la ra ≤ 1 :=
  ⟨le_max_left _ _, max_le (by norm_num) (min_le_right _ _)⟩

/-- C7: with both hips and both ankles present, `calculate_weight_transfer`
returns "Balanced" whenever the ankle span is below 10 px; otherwise it maps
the clipped hip-center ratio to "Balanced" on `[0.4, 0.6]`, to
`⌊ratio·100⌋% Front` for ratio > 0.6 and to `⌊(1-ratio)·100⌋% Back` for
ratio < 0.4; every reported percentage lies in `[0, 100]`. -/
theorem c7_weight_transfer (lh rh la ra : Point) :
    (|la.1 - ra.1| < 10 → calculate_weight_transfer lh rh la ra = .Balanced) ∧
    (¬ |la.1 - ra.1| < 10 →
      ((0.4 ≤ hipRatio lh rh la ra ∧ hipRatio lh rh la ra ≤ 0.6) →
          calculate_weight_transfer lh rh la ra = .Balanced) ∧
      (hipRatio lh rh la ra > 0.6 →
          calculate_weight_transfer lh rh la ra = .Front ⌊hipRatio lh rh la ra * 100⌋) ∧
      (hipRatio lh rh la ra < 0.4 →
          calculate_weight_transfer lh rh la ra = .Back ⌊(1 - hipRatio lh rh la ra) * 100⌋)) ∧
    (∀ p : ℤ,
      calculate_weight_transfer lh rh la ra = .Front p ∨
        calculate_weight_transfer lh rh la ra = .Back p →
      0 ≤ p ∧ p ≤ 100) := by
  obtain ⟨hr0, hr1⟩ := hipRatio_mem lh rh la ra
  have hfront : 0 ≤ ⌊hipRatio lh rh la ra * 100⌋ ∧ ⌊hipRatio lh rh la ra * 100⌋ ≤ 100 := by
    constructor
    · exact Int.floor_nonneg.mpr (by nlinarith)
    · calc ⌊hipRatio lh rh la ra * 100⌋ ≤ ⌊(100 : ℚ)⌋ :=
            Int.floor_le_floor (by nlinarith)
        _ = 100 := by norm_num
  have hback : 0 ≤ ⌊(1 - hipRatio lh rh la ra) * 100⌋ ∧
      ⌊(1 - hipRatio lh rh la ra) * 100⌋ ≤ 100 := by
    constructor
    · exact Int.floor_nonneg.mpr (by nlinarith)
    · calc ⌊(1 - hipRatio lh rh la ra) * 100⌋ ≤ ⌊(100 : ℚ)⌋ :=
            Int.floor_le_floor (by nlinarith)
        _ = 100 := by norm_num
  unfold calculate_weight_transfer hipRatio at *
  refine ⟨?_, ?_, ?_⟩
  · intro hw; rw [if_pos hw]
  · intro hw
    rw [if_neg hw]
    refine ⟨?_, ?_, ?_⟩
    · intro ⟨h4, h6⟩
      rw [if_neg (by simpa using not_lt.mpr h6), if_neg (by simpa using not_lt.mpr h4)]
    · intro h6
      rw [if_pos (by simpa using h6)]
    · intro h4
      rw [if_neg (by simp only [not_lt]; linarith), if_pos (by simpa using h4)]
  · intro p hp
    by_cases hw : |la.1 - ra.1| < 10
    · rw [if_pos hw] at hp
      rcases hp with hp | hp <;> exact absurd hp (by simp)
    · rw [if_neg hw] at hp
      dsimp only at hp
      split_ifs at hp with h6 h4
      · rcases hp with hp | hp
        · rw [show p = ⌊max 0 (min (((lh.1 + rh.1) / 2 - min la.1 ra.1) /
              (max la.1 ra.1 - min la.1 ra.1)) 1) * 100⌋ from
              (by simpa using hp.symm)]
          exact hfront
        · exact absurd hp (by simp)
      · rcases hp with hp | hp
        · exact absurd hp (by simp)
        · rw [show p = ⌊(1 - max 0 (min (((lh.1 + rh.1) / 2 - min la.1 ra.1) /
              (max la.1 ra.1 - min la.1 ra.1)) 1)) * 100⌋ from
              (by simpa using hp.symm)]
          exact hback
      · rcases hp with hp | hp <;> exact absurd hp (by simp)

open ShotSegmenter

/-- The phase is `Backlift` exactly when the elbow angle exceeds 150. -/
theorem detect_phase_backlift_iff (e : ℤ) :
    detect_phase e = .Backlift ↔ 150 < e := by
  unfold detect_phase
  split_ifs <;> simp_all

/-- The phase is `FollowThrough` exactly when the elbow angle is ≤ 90. -/
theorem detect_phase_followThrough_iff (e : ℤ) :
    detect_phase e = .FollowThrough ↔ e ≤ 90 := by
  unfold detect_phase
  split_ifs <;> simp_all <;> omega

/-- C4 (amended): with no active shot and a non-Backlift elbow angle
(elbow ≤ 150), `update` reports the current `shot_id` counter of the segmenter —
the id of the most recently started shot, which is 0 only if no shot has
ever started — with `started = false`, `ended = false` and no frames.  (The
claimed "shot id 0" holds only for a fresh segmenter; see
`c4_idle_not_zero` for a state with one completed shot where the reported
id is 1.) -/
theorem c4_idle_report (bufSize : ℕ) (s : SegState) (elbow : ℤ) (f : Frame)
    (fid : ℕ) (hshot : s.current_shot = none) (helb : elbow ≤ 150) :
    (update bufSize s elbow f fid).2 =
      { id := s.shot_id, phase := detect_phase elbow, started := false,
        ended := false, frames := none } := by
  have hph : detect_phase elbow ≠ .Backlift := by
    rw [Ne, detect_phase_backlift_iff]; omega
  simp [update, hshot, hph]

/-- Witness for `c4_idle_report`: an idle segmenter whose counter is at 5,
probed with elbow 100 (Contact phase). -/
theorem c4_idle_report_witness :
    (update 120 ⟨none, 5, []⟩ 100 0 0).2 =
      { id := 5, phase := detect_phase 100, started := false,
        ended := false, frames := none } :=
  c4_idle_report 120 ⟨none, 5, []⟩ 100 0 0 rfl (by norm_num)

/-- C4 counterexample: after one completed shot the segmenter counter is
1 and `current_shot` is `None`; calling `update` with elbow 100 (phase
`Contact`, not `Backlift`) reports id 1, not the claimed 0 — the code
returns `self.shot_id`, which is reset to 0 by nothing. -/
theorem c4_idle_not_zero :
    (SegState.mk none 1 []).current_shot = none ∧
      detect_phase 100 ≠ .Backlift ∧
      (update 120 ⟨none, 1, []⟩ 100 0 0).2.id = 1 ∧
      (update 120 ⟨none, 1, []⟩ 100 0 0).2.id ≠ 0 := by
  refine ⟨rfl, by decide, by decide, by decide⟩

/-- C6: `update` returns non-null `frames` exactly when the phase is
`FollowThrough` while a shot is active; on that call `ended = true`, the
full buffer (including the just-appended current frame) is returned, and
the successor state has no active shot and an empty buffer; a subsequent
Backlift entry (elbow > 150) from a shot-free state starts a fresh shot
whose buffer was cleared before the current frame was appended. -/
theorem c6_shot_end (bufSize : ℕ) (s : SegState) (elbow : ℤ) (f : Frame)
    (fid : ℕ) :
    ((update bufSize s elbow f fid).2.frames ≠ none ↔
      (detect_phase elbow = .FollowThrough ∧ s.current_shot.isSome)) ∧
    (∀ shot, s.current_shot = some shot →
      detect_phase elbow = .FollowThrough →
      (update bufSize s elbow f fid).2.ended = true ∧
      (update bufSize s elbow f fid).2.frames =
        some (appendBounded bufSize s.frame_buffer f) ∧
      (update bufSize s elbow f fid).1.current_shot = none ∧
      (update bufSize s elbow f fid).1.frame_buffer = []) ∧
    (s.current_shot = none → 150 < elbow →
      (update bufSize s elbow f fid).2.started = true ∧
      (update bufSize s elbow f fid).1.current_shot =
        some (s.shot_id + 1, fid) ∧
      (update bufSize s elbow f fid).1.frame_buffer =
        appendBounded bufSize [] f) := by
  refine ⟨?_, ?_, ?_⟩
  · rcases hs : s.current_shot with _ | shot
    · by_cases hbl : detect_phase elbow = .Backlift
      · have hft : detect_phase elbow ≠ .FollowThrough := by
          rw [hbl]; simp
        simp [update, hs, hbl, hft]
      · by_cases hft : detect_phase elbow = .FollowThrough
        · simp [update, hs, hbl, hft]
        · simp [update, hs, hbl, hft]
    · by_cases hft : detect_phase elbow = .FollowThrough
      · have hbl : detect_phase elbow ≠ .Backlift := by
          rw [hft]; simp
        simp [update, hs, hft, hbl]
      · simp [update, hs, hft]
  · intro shot hs hft
    have hbl : detect_phase elbow ≠ .Backlift := by
      rw [hft]; simp
    simp [update, hs, hft, hbl]
  · intro hs hbl150
    have hbl : detect_phase elbow = .Backlift :=
      (detect_phase_backlift_iff elbow).mpr hbl150
    have hft : detect_phase elbow ≠ .FollowThrough := by
      rw [hbl]; simp
    simp [update, hs, hbl, hft]

/-- Witness for `c6_shot_end`: a shot with id 3 and one buffered frame,
hit with elbow 50 (FollowThrough) — the shot ends, both buffered frames are
flushed, and the state is cleared. -/
theorem c6_shot_end_witness :
    (update 120 ⟨some (3, 0), 3, [7]⟩ 50 9 4).2.ended = true ∧
      (update 120 ⟨some (3, 0), 3, [7]⟩ 50 9 4).2.frames =
        some (appendBounded 120 [7] 9) ∧
      (update 120 ⟨some (3, 0), 3, [7]⟩ 50 9 4).1.current_shot = none ∧
      (update 120 ⟨some (3, 0), 3, [7]⟩ 50 9 4).1.frame_buffer = [] :=
  (c6_shot_end 120 ⟨some (3, 0), 3, [7]⟩ 50 9 4).2.1 (3, 0) rfl (by decide)

/-- C9: the Extractor fallback elbow angle 0 is classified as
`FollowThrough`, and any frame with elbow ≤ 90 leaves the segmenter with no
active shot — ending (and, if one was active, flushing the buffer of) any
in-progress shot. -/
theorem c9_lost_target_ends_shot (bufSize : ℕ) (s : SegState) (elbow : ℤ)
    (f : Frame) (fid : ℕ) (h : elbow ≤ 90) :
    detect_phase 0 = .FollowThrough ∧
      (update bufSize s elbow f fid).1.current_shot = none ∧
      (s.current_shot.isSome →
        (update bufSize s elbow f fid).1.frame_buffer = []) := by
  have hft : detect_phase elbow = .FollowThrough :=
    (detect_phase_followThrough_iff elbow).mpr h
  have hbl : detect_phase elbow ≠ .Backlift := by
    rw [hft]; simp
  refine ⟨by decide, ?_, ?_⟩
  · rcases hs : s.current_shot with _ | shot
    · simp [update, hs, hft, hbl]
    · simp [update, hs, hft]
  · intro hsome
    rcases hs : s.current_shot with _ | shot
    · rw [hs] at hsome; simp at hsome
    · simp [update, hs, hft]

/-- Witness for `c9_lost_target_ends_shot`: a segmenter mid-shot (id 2, one
buffered frame) receives a lost-target frame with elbow 0. -/
theorem c9_lost_target_ends_shot_witness :
    detect_phase 0 = .FollowThrough ∧
      (update 120 ⟨some (2, 0), 2, [5]⟩ 0 1 6).1.current_shot = none ∧
      ((SegState.mk (some (2, 0)) 2 [5]).current_shot.isSome →
        (update 120 ⟨some (2, 0), 2, [5]⟩ 0 1 6).1.frame_buffer = []) :=
  c9_lost_target_ends_shot 120 ⟨some (2, 0), 2, [5]⟩ 0 1 6 (by norm_num)

open Coach SpeedEstimator

/-- C5: `Coach.evaluate` applies its rules in priority order with
first-match short-circuit and skips every numeric guard whose input is
zero: bat speed 50 with elbow 100 always yields the power message and never
the downswing-timing message, whatever the other inputs; and a zero input
never triggers the rule guarding it (bat 0 never yields the power message,
elbow 0 never the downswing message, knee 0 never the balance message,
arm 0 never the forearm message, ball 0 never the late-contact message). -/
theorem c5_coach_priority :
    (∀ knee arm ball : ℚ, evaluate 100 knee 50 arm ball = .power) ∧
    (∀ knee arm ball : ℚ, evaluate 100 knee 50 arm ball ≠ .downswingTiming) ∧
    (∀ elbow knee arm ball : ℚ, evaluate elbow knee 0 arm ball ≠ .power) ∧
    (∀ knee bat arm ball : ℚ, evaluate 0 knee bat arm ball ≠ .downswingTiming) ∧
    (∀ elbow bat arm ball : ℚ, evaluate elbow 0 bat arm ball ≠ .balance) ∧
    (∀ elbow knee bat ball : ℚ, evaluate elbow knee bat 0 ball ≠ .forearm) ∧
    (∀ elbow knee bat arm : ℚ, evaluate elbow knee bat arm 0 ≠ .lateContact) := by
  refine ⟨?_, ?_, ?_, ?_, ?_, ?_, ?_⟩
  · intro knee arm ball
    unfold evaluate
    rw [if_pos ⟨by norm_num, by norm_num [MIN_BAT_SPEED]⟩]
  · intro knee arm ball
    unfold evaluate
    rw [if_pos ⟨by norm_num, by norm_num [MIN_BAT_SPEED]⟩]
    simp
  · intro elbow knee arm ball
    unfold evaluate
    split_ifs <;> simp_all
  · intro knee bat arm ball
    unfold evaluate
    split_ifs <;> simp_all
  · intro elbow bat arm ball
    unfold evaluate
    split_ifs <;> simp_all
  · intro elbow knee bat ball
    unfold evaluate
    split_ifs <;> simp_all
  · intro elbow knee bat arm
    unfold evaluate
    split_ifs <;> simp_all

/-- Witness for `c5_coach_priority` at concrete side inputs: bat speed 50
with elbow 100 yields the power message. -/
theorem c5_coach_priority_witness :
    evaluate 100 7 50 8 9 = .power ∧ evaluate 100 7 50 8 9 ≠ .downswingTiming :=
  ⟨c5_coach_priority.1 7 8 9, c5_coach_priority.2.1 7 8 9⟩

/-- C10: `_bat_speed(None)` reports 0.0, sets `prev_wrist` to `None` and
leaves the EMA state untouched; the next call with a wrist then also
reports 0.0, only re-seeding `prev_wrist`, again without touching the EMA
state. -/
theorem c10_bat_speed_none (fps : ℝ) (s : BatState) :
    batStep fps s none = ({ s with prev_wrist := none }, 0) ∧
    ∀ w : Point, batStep fps { s with prev_wrist := none } (some w) =
      ({ prev_wrist := some w, bat_ema := s.bat_ema }, 0) := by
  obtain ⟨pw, ema⟩ := s
  exact ⟨rfl, fun w => rfl⟩

/-- C2 (amended): a frame with no qualifying motion contour — none at all,
or largest-contour area outside `[5, 300]` — reports ball speed 0 and
leaves the rolling window *and* the stored previous ball-blob center
unchanged (only `prev_gray` advances).  The claimed "previous center is
reset to uninitialized, restarting ball-distance tracking" is false: the
code returns early without touching `prev_ball_center`, see
`c2_center_not_reset`. -/
theorem c2_no_contour (fps : ℝ) (s : BallState) (g0 gray : ℕ)
    (contours : List Contour) (hprev : s.prev_gray = some g0)
    (hq : noQualifying contours = true) :
    ballStep fps s gray contours = ({ s with prev_gray := some gray }, 0) := by
  rcases contours with _ | ⟨c0, rest⟩
  · simp [ballStep, hprev]
  · have harea : (maxByArea c0 rest).area < 5 ∨ (maxByArea c0 rest).area > 300 := by
      simpa [noQualifying] using hq
    simp [ballStep, hprev, harea]

/-- Witness for `c2_no_contour`: a mid-stream state (previous gray frame
seen, a tracked center, one window sample) hit by a contour-free frame. -/
theorem c2_no_contour_witness :
    ballStep 30 ⟨some 0, some (2, 3), [(3 : ℝ)]⟩ 1 [] =
      ({ prev_gray := some 1, prev_ball_center := some (2, 3),
         ball_speeds := [(3 : ℝ)] }, 0) :=
  c2_no_contour 30 ⟨some 0, some (2, 3), [(3 : ℝ)]⟩ 0 1 [] rfl rfl

/-- C2 counterexample: from a state tracking center (0, 0), one frame with
no contour leaves `prev_ball_center = some (0, 0)` — it is *not* reset to
the uninitialized state, so a single occlusion frame does not restart
ball-distance tracking. -/
theorem c2_center_not_reset :
    (ballStep 30 ⟨some 0, some (0, 0), []⟩ 1 []).1.prev_ball_center
        = some (0, 0) ∧
      ¬ (ballStep 30 ⟨some 0, some (0, 0), []⟩ 1 []).1.prev_ball_center
        = none := by
  constructor <;> simp [ballStep]

/-- Unfolding lemma: running on the empty observation list is a no-op. -/
theorem batRun_nil (fps : ℝ) (s : BatState) : batRun fps s [] = (s, []) := rfl

/-- Unfolding lemma: one observation step of `batRun`. -/
theorem batRun_cons (fps : ℝ) (s : BatState) (w : Option Point)
    (ws : List (Option Point)) :
    batRun fps s (w :: ws) =
      ((batRun fps (batStep fps s w).1 ws).1,
       (batStep fps s w).2 :: (batRun fps (batStep fps s w).1 ws).2) := rfl

/-- Evaluation rule for `round2` away from ties. -/
theorem round2_eq_div (x : ℝ) (n : ℤ) (h1 : (n : ℝ) ≤ 100 * x + 1 / 2)
    (h2 : 100 * x + 1 / 2 < n + 1) : round2 x = n / 100 := by
  unfold round2
  rw [round_eq, Int.floor_eq_iff.mpr ⟨h1, h2⟩]

/-- Evaluation rule for `pxDist` at points with a rational distance. -/
theorem pxDist_eq (p q : Point) (d : ℝ) (hd : 0 ≤ d)
    (h : ((q.1 - p.1 : ℚ) : ℝ) ^ 2 + ((q.2 - p.2 : ℚ) : ℝ) ^ 2 = d ^ 2) :
    pxDist p q = d := by
  unfold pxDist
  rw [h, Real.sqrt_sq hd]

/-- C1: the first observed wrist reports 0 and only seeds `prev_wrist`;
afterwards each observed wrist reports the EMA recurrence
`ema = 0.3*raw + 0.7*ema` (seeded with the first raw value) of the raw
speeds `pxDist * 0.0025 * fps * 3.6`, capped at 160 and rounded to 2
decimals.  On the synthetic run of the spec
`[(0,0), (10,0), (10,0), (30,0)]` at 30 fps the frame-2 raw speed is
2.7 km/h and the reported speeds are `[0, 2.7, 1.89, 2.94]`; in particular
the frame-3 value 1.89 is the EMA `0.3·0 + 0.7·2.7` of the raw values 0
and 2.7, not a raw value. -/
theorem c1_bat_speed_ema (fps : ℝ) :
    meters_per_pixel = 0.0025 ∧
    alpha = 0.3 ∧
    (∀ (e : Option ℝ) (w : Point),
      batStep fps ⟨none, e⟩ (some w) = (⟨some w, e⟩, 0)) ∧
    (∀ p w : Point, batStep fps ⟨some p, none⟩ (some w) =
      (⟨some w, some (rawSpeed fps p w)⟩,
       round2 (min (rawSpeed fps p w) 160))) ∧
    (∀ (p w : Point) (e : ℝ), batStep fps ⟨some p, some e⟩ (some w) =
      (⟨some w, some (alpha * rawSpeed fps p w + (1 - alpha) * e)⟩,
       round2 (min (alpha * rawSpeed fps p w + (1 - alpha) * e) 160))) ∧
    rawSpeed 30 (0, 0) (10, 0) = 2.7 ∧
    (1.89 : ℝ) = alpha * 0 + (1 - alpha) * 2.7 ∧
    (batRun 30 ⟨none, none⟩
        [some (0, 0), some (10, 0), some (10, 0), some (30, 0)]).2 =
      [0, 2.7, 1.89, 2.94] := by
  have hd1 : pxDist (0, 0) (10, 0) = 10 :=
    pxDist_eq _ _ 10 (by norm_num) (by push_cast; norm_num)
  have hd2 : pxDist (10, 0) (10, 0) = 0 :=
    pxDist_eq _ _ 0 (by norm_num) (by push_cast; norm_num)
  have hd3 : pxDist (10, 0) (30, 0) = 20 :=
    pxDist_eq _ _ 20 (by norm_num) (by push_cast; norm_num)
  have hraw1 : rawSpeed 30 (0, 0) (10, 0) = 2.7 := by
    unfold rawSpeed; rw [hd1]; norm_num [meters_per_pixel]
  have hraw2 : rawSpeed 30 (10, 0) (10, 0) = 0 := by
    unfold rawSpeed; rw [hd2]; norm_num
  have hraw3 : rawSpeed 30 (10, 0) (30, 0) = 5.4 := by
    unfold rawSpeed; rw [hd3]; norm_num [meters_per_pixel]
  have r27 : round2 (2.7 : ℝ) = 2.7 := by
    rw [round2_eq_div 2.7 270 (by norm_num) (by norm_num)]; norm_num
  have r189 : round2 (1.89 : ℝ) = 1.89 := by
    rw [round2_eq_div 1.89 189 (by norm_num) (by norm_num)]; norm_num
  have r2943 : round2 (2.943 : ℝ) = 2.94 := by
    rw [round2_eq_div 2.943 294 (by norm_num) (by norm_num)]; norm_num
  have hstep1 : batStep 30 ⟨none, none⟩ (some (0, 0)) =
      (⟨some (0, 0), none⟩, 0) := rfl
  have hstep2 : batStep 30 ⟨some (0, 0), none⟩ (some (10, 0)) =
      (⟨some (10, 0), some 2.7⟩, 2.7) := by
    calc batStep 30 ⟨some (0, 0), none⟩ (some (10, 0))
        = (⟨some (10, 0), some (rawSpeed 30 (0, 0) (10, 0))⟩,
           round2 (min (rawSpeed 30 (0, 0) (10, 0)) 160)) := rfl
      _ = (⟨some (10, 0), some 2.7⟩, 2.7) := by
          rw [hraw1, min_eq_left (by norm_num), r27]
  have hema3 : alpha * (0 : ℝ) + (1 - alpha) * 2.7 = 1.89 := by
    norm_num [alpha]
  have hstep3 : batStep 30 ⟨some (10, 0), some 2.7⟩ (some (10, 0)) =
      (⟨some (10, 0), some 1.89⟩, 1.89) := by
    calc batStep 30 ⟨some (10, 0), some 2.7⟩ (some (10, 0))
        = (⟨some (10, 0),
            some (alpha * rawSpeed 30 (10, 0) (10, 0) + (1 - alpha) * 2.7)⟩,
           round2 (min (alpha * rawSpeed 30 (10, 0) (10, 0)
              + (1 - alpha) * 2.7) 160)) := rfl
      _ = (⟨some (10, 0), some 1.89⟩, 1.89) := by
          rw [hraw2, hema3, min_eq_left (by norm_num), r189]
  have hema4 : alpha * (5.4 : ℝ) + (1 - alpha) * 1.89 = 2.943 := by
    norm_num [alpha]
  have hstep4 : batStep 30 ⟨some (10, 0), some 1.89⟩ (some (30, 0)) =
      (⟨some (30, 0), some 2.943⟩, 2.94) := by
    calc batStep 30 ⟨some (10, 0), some 1.89⟩ (some (30, 0))
        = (⟨some (30, 0),
            some (alpha * rawSpeed 30 (10, 0) (30, 0) + (1 - alpha) * 1.89)⟩,
           round2 (min (alpha * rawSpeed 30 (10, 0) (30, 0)
              + (1 - alpha) * 1.89) 160)) := rfl
      _ = (⟨some (30, 0), some 2.943⟩, 2.94) := by
          rw [hraw3, hema4, min_eq_left (by norm_num), r2943]
  have t4 : batRun 30 ⟨some (10, 0), some 1.89⟩ [some (30, 0)] =
      (⟨some (30, 0), some 2.943⟩, [2.94]) := by
    rw [batRun_cons, hstep4, batRun_nil]
  have t3 : batRun 30 ⟨some (10, 0), some 2.7⟩
      [some (10, 0), some (30, 0)] =
      (⟨some (30, 0), some 2.943⟩, [1.89, 2.94]) := by
    rw [batRun_cons, hstep3]
    dsimp only
    rw [t4]
  have t2 : batRun 30 ⟨some (0, 0), none⟩
      [some (10, 0), some (10, 0), some (30, 0)] =
      (⟨some (30, 0), some 2.943⟩, [2.7, 1.89, 2.94]) := by
    rw [batRun_cons, hstep2]
    dsimp only
    rw [t3]
  have t1 : batRun 30 ⟨none, none⟩
      [some (0, 0), some (10, 0), some (10, 0), some (30, 0)] =
      (⟨some (30, 0), some 2.943⟩, [0, 2.7, 1.89, 2.94]) := by
    rw [batRun_cons, hstep1]
    dsimp only
    rw [t2]
  exact ⟨rfl, rfl, fun e w => rfl, fun p w => rfl, fun p w e => rfl,
    hraw1, by norm_num [alpha], by rw [t1]⟩

/-- Witness for `c7_weight_transfer`: with ankles at x = 0 and x = 100 and
both hips at x = 80, the ratio is 0.8 > 0.6, so the result is "80% Front",
and a narrow stance (span 0) gives "Balanced". -/
theorem c7_weight_transfer_witness :
    calculate_weight_transfer (80, 0) (80, 0) (0, 0) (100, 0) =
        .Front ⌊hipRatio (80, 0) (80, 0) (0, 0) (100, 0) * 100⌋ ∧
      calculate_weight_transfer (0, 0) (0, 0) (5, 5) (5, 9) = .Balanced :=
  ⟨((c7_weight_transfer (80, 0) (80, 0) (0, 0) (100, 0)).2.1
      (by norm_num)).2.1 (by norm_num [PoseEngine.hipRatio]),
    (c7_weight_transfer (0, 0) (0, 0) (5, 5) (5, 9)).1 (by norm_num)⟩

end CricketAI
